import Mathlib

/-!
Verification development for the SCUF Envision Pro V2 Linux driver
(`scuf_envision` package): a shallow embedding of the constants, the input
filter, the virtual-gamepad publisher, the bridge event handlers and the
device-discovery selection logic, together with theorems settling the
behavioural claims about them.

Conventions of the embedding:
* Machine integers of the source are modelled by `Int` (no overflow occurs in
  the relevant ranges).
* Python float arithmetic inside `InputFilter.filter_stick` is modelled by
  exact real arithmetic (`ℝ`); `int(...)` truncation toward zero is modelled
  by `truncInt`.
* Methods that mutate `self` are modelled as functions returning the updated
  object; writes to the uinput device are modelled as an explicit trace of
  `GAction` values.
-/

namespace ScufEnvision

/-! ### Linux input-event codes (numeric values of `evdev.ecodes`) -/

def EV_SYN : Int := 0x00
def EV_KEY : Int := 0x01
def EV_ABS : Int := 0x03

def BTN_SOUTH : Int := 0x130
def BTN_EAST : Int := 0x131
def BTN_C : Int := 0x132
def BTN_NORTH : Int := 0x133
def BTN_WEST : Int := 0x134
def BTN_Z : Int := 0x135
def BTN_TL : Int := 0x136
def BTN_TR : Int := 0x137
def BTN_TL2 : Int := 0x138
def BTN_TR2 : Int := 0x139
def BTN_SELECT : Int := 0x13a
def BTN_START : Int := 0x13b
def BTN_MODE : Int := 0x13c
def BTN_THUMBL : Int := 0x13d
def BTN_THUMBR : Int := 0x13e
def BTN_TRIGGER_HAPPY1 : Int := 0x2c0
def BTN_TRIGGER_HAPPY2 : Int := 0x2c1
def BTN_TRIGGER_HAPPY3 : Int := 0x2c2

def ABS_X : Int := 0x00
def ABS_Y : Int := 0x01
def ABS_Z : Int := 0x02
def ABS_RX : Int := 0x03
def ABS_RY : Int := 0x04
def ABS_RZ : Int := 0x05
def ABS_HAT0X : Int := 0x10
def ABS_HAT0Y : Int := 0x11

/-! ### `constants.py` -/

def SCUF_VENDOR_ID : Int := 0x1B1C
def SCUF_PRODUCT_ID_WIRED : Int := 0x3A05
def SCUF_PRODUCT_ID_RECEIVER : Int := 0x3A09

/-- `BUTTON_MAP` from `constants.py`: physical code → standard Xbox code. -/
def BUTTON_MAP : List (Int × Int) :=
  [(BTN_SOUTH, BTN_SOUTH),
   (BTN_EAST, BTN_EAST),
   (BTN_C, BTN_NORTH),
   (BTN_NORTH, BTN_WEST),
   (BTN_WEST, BTN_TL),
   (BTN_Z, BTN_TR),
   (BTN_TL, BTN_SELECT),
   (BTN_TR, BTN_START),
   (BTN_TL2, BTN_THUMBL),
   (BTN_TR2, BTN_THUMBR),
   (BTN_MODE, BTN_MODE)]

/-- `PADDLE_MAP` from `constants.py`. -/
def PADDLE_MAP : List (Int × Int) :=
  [(BTN_TRIGGER_HAPPY1, BTN_TRIGGER_HAPPY1),
   (BTN_TRIGGER_HAPPY2, BTN_TRIGGER_HAPPY2),
   (BTN_TRIGGER_HAPPY3, BTN_TRIGGER_HAPPY3)]

/-- `AXIS_MAP` from `constants.py`: physical axis code → standard Xbox axis code. -/
def AXIS_MAP : List (Int × Int) :=
  [(ABS_X, ABS_X),
   (ABS_Y, ABS_Y),
   (ABS_Z, ABS_RX),
   (ABS_RX, ABS_Z),
   (ABS_RY, ABS_RZ),
   (ABS_RZ, ABS_RY),
   (ABS_HAT0X, ABS_HAT0X),
   (ABS_HAT0Y, ABS_HAT0Y)]

def STICK_MIN : Int := -32768
def STICK_MAX : Int := 32767
def TRIGGER_MIN : Int := 0
def TRIGGER_MAX : Int := 1023

def STICK_DEADZONE : Int := 3500
def TRIGGER_DEADZONE : Int := 10
def STICK_JITTER_THRESHOLD : Int := 64

/-- Dictionary lookup (`code in MAP` / `MAP[code]`) on an association list. -/
def mapLookup (m : List (Int × Int)) (code : Int) : Option Int :=
  (m.find? (fun p => p.1 == code)).map Prod.snd

/-! ### `input_filter.py` — `InputFilter` -/

/-- The `InputFilter` object: configured thresholds plus the `_last`
dictionary used by jitter suppression (`None` ≙ key absent). -/
structure InputFilter where
  stick_deadzone : Int
  trigger_deadzone : Int
  jitter_threshold : Int
  last : String → Option Int

/-- `InputFilter()` constructed with the default arguments of `__init__`
(`STICK_DEADZONE`, `TRIGGER_DEADZONE`, `STICK_JITTER_THRESHOLD`, empty
`_last` dictionary). -/
def defaultInputFilter : InputFilter :=
  { stick_deadzone := STICK_DEADZONE
    trigger_deadzone := TRIGGER_DEADZONE
    jitter_threshold := STICK_JITTER_THRESHOLD
    last := fun _ => none }

/-- Python `int(...)` applied to a real number: truncation toward zero. -/
noncomputable def truncInt (r : ℝ) : Int :=
  if 0 ≤ r then ⌊r⌋ else ⌈r⌉

/-- `InputFilter.filter_stick`: radial deadzone over a stick pair.
Float arithmetic of the source is modelled by exact real arithmetic. -/
noncomputable def InputFilter.filter_stick (f : InputFilter) (x y : Int) :
    Int × Int :=
  let magnitude : ℝ := Real.sqrt (((x * x + y * y : Int) : ℝ))
  if magnitude < (f.stick_deadzone : ℝ) then (0, 0)
  else
    let max_magnitude : ℝ := (STICK_MAX : ℝ)
    let scale : ℝ :=
      (magnitude - (f.stick_deadzone : ℝ)) / (max_magnitude - (f.stick_deadzone : ℝ))
    let scale : ℝ := min scale 1
    let nxy : ℝ × ℝ :=
      if magnitude > 0 then ((x : ℝ) / magnitude, (y : ℝ) / magnitude)
      else (0, 0)
    let out_x : Int := truncInt (nxy.1 * scale * max_magnitude)
    let out_y : Int := truncInt (nxy.2 * scale * max_magnitude)
    (max STICK_MIN (min STICK_MAX out_x), max STICK_MIN (min STICK_MAX out_y))

/-- `InputFilter.filter_trigger`: floor small trigger values to zero. -/
def InputFilter.filter_trigger (f : InputFilter) (value : Int) : Int :=
  if value < f.trigger_deadzone then 0 else value

/-- `InputFilter.suppress_jitter`: returns `(value, changed, updated filter)`.
The source returns `(value, changed)` and mutates `self._last`. -/
def InputFilter.suppress_jitter (f : InputFilter) (key : String)
    (new_value : Int) : Int × Bool × InputFilter :=
  match f.last key with
  | some old =>
      if |new_value - old| < f.jitter_threshold then
        (old, false, f)
      else
        (new_value, true,
         { f with last := fun k => if k = key then some new_value else f.last k })
  | none =>
      (new_value, true,
       { f with last := fun k => if k = key then some new_value else f.last k })

/-! ### `virtual_gamepad.py` — `VirtualGamepad`

Writes to the kernel uinput device are modelled as a trace of `GAction`
values returned alongside the updated object. -/

/-- One observable action on the uinput device. -/
inductive GAction where
  | write (etype code value : Int)
  | syn
  | destroy
  deriving DecidableEq

/-- The `VirtualGamepad` object; `device = none` models `self._device is None`
(before `create()` or after `close()`). The created device itself carries no
further state relevant here, hence `Option Unit`. -/
structure VirtualGamepad where
  device : Option Unit
  deriving DecidableEq

/-- `VirtualGamepad.__init__`: `self._device = None`. -/
def VirtualGamepad.init : VirtualGamepad := { device := none }

/-- `VirtualGamepad.create`: instantiates the uinput device. -/
def VirtualGamepad.create (_g : VirtualGamepad) : VirtualGamepad :=
  { device := some () }

/-- `VirtualGamepad.emit_button`: write an `EV_KEY` event if the device exists. -/
def VirtualGamepad.emit_button (g : VirtualGamepad) (code value : Int) :
    VirtualGamepad × List GAction :=
  if g.device.isSome then (g, [GAction.write EV_KEY code value]) else (g, [])

/-- `VirtualGamepad.emit_axis`: write an `EV_ABS` event if the device exists. -/
def VirtualGamepad.emit_axis (g : VirtualGamepad) (code value : Int) :
    VirtualGamepad × List GAction :=
  if g.device.isSome then (g, [GAction.write EV_ABS code value]) else (g, [])

/-- `VirtualGamepad.syn`: send a SYN_REPORT if the device exists. -/
def VirtualGamepad.syn (g : VirtualGamepad) : VirtualGamepad × List GAction :=
  if g.device.isSome then (g, [GAction.syn]) else (g, [])

/-- `VirtualGamepad.close`: destroy the device if it exists, else do nothing. -/
def VirtualGamepad.close (g : VirtualGamepad) : VirtualGamepad × List GAction :=
  if g.device.isSome then ({ device := none }, [GAction.destroy]) else (g, [])

/-! ### `bridge.py` — `BridgeService` -/

/-- The mutable state of a `BridgeService` instance (the fields touched by the
event handlers and the disconnect path). -/
structure BridgeState where
  filter : InputFilter
  gamepad : VirtualGamepad
  reconnect : Bool
  running : Bool
  physical : Option String
  grabbed_devices : List String
  raw_left_x : Int
  raw_left_y : Int
  raw_right_x : Int
  raw_right_y : Int

/-- `BridgeService._emit_filtered_stick`: apply the radial deadzone to the
latched raw pair, jitter-suppress both components, and emit both components
followed by a SYN when either suppressed value changed. -/
noncomputable def emit_filtered_stick (st : BridgeState) (stick_name : String)
    (raw_x raw_y out_x_code out_y_code : Int) : BridgeState × List GAction :=
  let fxy := st.filter.filter_stick raw_x raw_y
  let rx := st.filter.suppress_jitter (stick_name ++ "_x") fxy.1
  let ry := rx.2.2.suppress_jitter (stick_name ++ "_y") fxy.2
  let st1 := { st with filter := ry.2.2 }
  if rx.2.1 || ry.2.1 then
    let e1 := st1.gamepad.emit_axis out_x_code rx.1
    let e2 := e1.1.emit_axis out_y_code ry.1
    let e3 := e2.1.syn
    ({ st1 with gamepad := e3.1 }, e1.2 ++ e2.2 ++ e3.2)
  else
    (st1, [])

/-- `BridgeService._handle_button`: translate through `BUTTON_MAP`, then
`PADDLE_MAP`; unknown codes are dropped (the source at most logs them). -/
def handle_button (st : BridgeState) (code value : Int) :
    BridgeState × List GAction :=
  match mapLookup BUTTON_MAP code with
  | some mapped =>
      let e1 := st.gamepad.emit_button mapped value
      let e2 := e1.1.syn
      ({ st with gamepad := e2.1 }, e1.2 ++ e2.2)
  | none =>
      match mapLookup PADDLE_MAP code with
      | some mapped =>
          let e1 := st.gamepad.emit_button mapped value
          let e2 := e1.1.syn
          ({ st with gamepad := e2.1 }, e1.2 ++ e2.2)
      | none => (st, [])

/-- `BridgeService._handle_axis`: dispatch on the physical axis code; sticks
go through `_emit_filtered_stick`, triggers through the trigger filter plus
jitter suppression, anything else mapped is passed straight through. -/
noncomputable def handle_axis (st : BridgeState) (code value : Int) :
    BridgeState × List GAction :=
  match mapLookup AXIS_MAP code with
  | none => (st, [])
  | some mapped =>
      if code = ABS_X then
        let st1 := { st with raw_left_x := value }
        emit_filtered_stick st1 "left" st1.raw_left_x st1.raw_left_y ABS_X ABS_Y
      else if code = ABS_Y then
        let st1 := { st with raw_left_y := value }
        emit_filtered_stick st1 "left" st1.raw_left_x st1.raw_left_y ABS_X ABS_Y
      else if code = ABS_Z then
        let st1 := { st with raw_right_x := value }
        emit_filtered_stick st1 "right" st1.raw_right_x st1.raw_right_y ABS_RX ABS_RY
      else if code = ABS_RZ then
        let st1 := { st with raw_right_y := value }
        emit_filtered_stick st1 "right" st1.raw_right_x st1.raw_right_y ABS_RX ABS_RY
      else if code = ABS_RX then
        let filtered := st.filter.filter_trigger value
        let r := st.filter.suppress_jitter "lt" filtered
        let st1 := { st with filter := r.2.2 }
        if r.2.1 then
          let e1 := st1.gamepad.emit_axis ABS_Z r.1
          let e2 := e1.1.syn
          ({ st1 with gamepad := e2.1 }, e1.2 ++ e2.2)
        else (st1, [])
      else if code = ABS_RY then
        let filtered := st.filter.filter_trigger value
        let r := st.filter.suppress_jitter "rt" filtered
        let st1 := { st with filter := r.2.2 }
        if r.2.1 then
          let e1 := st1.gamepad.emit_axis ABS_RZ r.1
          let e2 := e1.1.syn
          ({ st1 with gamepad := e2.1 }, e1.2 ++ e2.2)
        else (st1, [])
      else
        let e1 := st.gamepad.emit_axis mapped value
        let e2 := e1.1.syn
        ({ st with gamepad := e2.1 }, e1.2 ++ e2.2)

/-- `BridgeService._release_physical`: ungrab and close every grabbed device,
keep the virtual gamepad. -/
def release_physical (st : BridgeState) : BridgeState :=
  { st with grabbed_devices := [], physical := none }

/-- `BridgeService._zero_virtual_outputs`: emit zero on the six analog axes,
SYN once, and reset the four latched raw stick readings. -/
def zero_virtual_outputs (st : BridgeState) : BridgeState × List GAction :=
  let e1 := st.gamepad.emit_axis ABS_X 0
  let e2 := e1.1.emit_axis ABS_Y 0
  let e3 := e2.1.emit_axis ABS_RX 0
  let e4 := e3.1.emit_axis ABS_RY 0
  let e5 := e4.1.emit_axis ABS_Z 0
  let e6 := e5.1.emit_axis ABS_RZ 0
  let e7 := e6.1.syn
  ({ st with gamepad := e7.1,
             raw_left_x := 0, raw_left_y := 0,
             raw_right_x := 0, raw_right_y := 0 },
   e1.2 ++ e2.2 ++ e3.2 ++ e4.2 ++ e5.2 ++ e6.2 ++ e7.2)

/-- Where the bridge goes after a `_DeviceDisconnected` is handled. -/
inductive BridgeOutcome where
  | reconnecting
  | stopped
  deriving DecidableEq

/-- The `except _DeviceDisconnected` branch of
`BridgeService._run_with_reconnect`, composed with the `_cleanup` performed by
the `finally` block of `start` when the loop breaks out: release the physical
devices; if reconnection is off (or shutdown was requested) break out, upon
which `_cleanup` closes the virtual gamepad; otherwise zero the virtual
outputs and wait for reconnection. -/
def handle_device_disconnected (st : BridgeState) :
    BridgeOutcome × BridgeState × List GAction :=
  let st1 := release_physical st
  if !st1.reconnect || !st1.running then
    let st2 := release_physical st1
    let e := st2.gamepad.close
    (BridgeOutcome.stopped, { st2 with gamepad := e.1 }, e.2)
  else
    let z := zero_virtual_outputs st1
    (BridgeOutcome.reconnecting, z.1, z.2)

/-! ### `discovery.py` — `discover_scuf`

The sysfs scan itself is I/O; its result is one entry per matching input
node, mirroring the `(event_path, has_js, name, sysfs_dir, pid)` tuples the
source collects in `matching_events`. `has_gamepad_caps` records the result
of the `_has_gamepad_capabilities` probe used by strategy 2. -/

/-- One element of `matching_events` in `discover_scuf`. -/
structure ScufEventNode where
  event_path : String
  has_js : Bool
  name : String
  sysfs_dir : String
  pid : Int
  has_gamepad_caps : Bool
  deriving DecidableEq

/-- The result object `DiscoveredDevice` (the `hidraw_path` auxiliary field is
irrelevant to the claims and omitted). -/
structure DiscoveredDevice where
  event_path : String
  secondary_event_paths : List String
  connection_type : String
  deriving DecidableEq

/-- Strategy 1 of `discover_scuf`: one pass over `matching_events`; the first
node with a js handler becomes primary, every other node goes to secondary. -/
def strategy1Loop (primary : Option String) (secondary : List String) :
    List ScufEventNode → Option String × List String
  | [] => (primary, secondary)
  | c :: rest =>
      if c.has_js then
        match primary with
        | none => strategy1Loop (some c.event_path) secondary rest
        | some p => strategy1Loop (some p) (secondary ++ [c.event_path]) rest
      else
        strategy1Loop primary (secondary ++ [c.event_path]) rest

/-- The primary/secondary selection of `discover_scuf` (strategies 1–3). -/
def select_primary (matching_events : List ScufEventNode) :
    Option (String × List String) :=
  if matching_events.isEmpty then none
  else
    let s1 := strategy1Loop none [] matching_events
    match s1.1 with
    | some p => some (p, s1.2)
    | none =>
        match matching_events.find? (fun c => c.has_gamepad_caps) with
        | some c =>
            some (c.event_path,
              (matching_events.filter
                (fun e => e.event_path ≠ c.event_path)).map ScufEventNode.event_path)
        | none =>
            match matching_events with
            | [] => none
            | c :: rest => some (c.event_path, rest.map ScufEventNode.event_path)

/-- Connection-type determination of `discover_scuf`: find the entry for the
selected primary; receiver PID ⇒ wireless, otherwise the initial "wired". -/
def connection_type_for (matching_events : List ScufEventNode)
    (primary : String) : String :=
  match matching_events.find? (fun c => c.event_path == primary) with
  | some c => if c.pid = SCUF_PRODUCT_ID_RECEIVER then "wireless" else "wired"
  | none => "wired"

/-- `discover_scuf`, from the already-enumerated matching nodes onward. -/
def discover_scuf (matching_events : List ScufEventNode) :
    Option DiscoveredDevice :=
  match select_primary matching_events with
  | none => none
  | some ps =>
      some { event_path := ps.1
             secondary_event_paths := ps.2
             connection_type := connection_type_for matching_events ps.1 }

/-- `run()` in `bridge.py`: `reconnect = (discovered.connection_type == "wireless")`. -/
def reconnect_enabled (d : DiscoveredDevice) : Bool :=
  d.connection_type == "wireless"

/-! ### Repeated jitter-suppression calls

`suppressRun` performs a sequence of `suppress_jitter` calls on one channel
key, collecting the `(value, changed)` results, threading the filter state. -/

def suppressRun (f : InputFilter) (key : String) :
    List Int → InputFilter × List (Int × Bool)
  | [] => (f, [])
  | v :: vs =>
      let r := f.suppress_jitter key v
      let rest := suppressRun r.2.2 key vs
      (rest.1, (r.1, r.2.1) :: rest.2)

/-! ### Concrete states used by witnesses and counterexamples -/

/-- A bridge in the `Running` state over a wireless connection: virtual
gamepad created, reconnection enabled, primary and one secondary grabbed. -/
def exSt : BridgeState :=
  { filter := defaultInputFilter
    gamepad := { device := some () }
    reconnect := true
    running := true
    physical := some "/dev/input/event7"
    grabbed_devices := ["/dev/input/event7", "/dev/input/event8"]
    raw_left_x := 0
    raw_left_y := 0
    raw_right_x := 0
    raw_right_y := 0 }

/-- Same bridge but wired: reconnection disabled. -/
def exNoReconnectSt : BridgeState :=
  { exSt with reconnect := false }

/-- A running wireless bridge whose jitter memory holds a stale nonzero
left-trigger value. -/
def exStaleSt : BridgeState :=
  { exSt with
    filter := { defaultInputFilter with
                last := fun k => if k = "lt" then some 500 else none } }

/-- A running bridge whose jitter memory has latched a large left-stick X
value and a zero left-stick Y value. -/
def exStickSt : BridgeState :=
  { exSt with
    filter := { defaultInputFilter with
                last := fun k =>
                  if k = "left_x" then some 5000
                  else if k = "left_y" then some 0
                  else none }
    raw_left_x := 5000 }

/-- `exStickSt` after a left-stick X event latched the raw value 0. -/
def exStickSt2 : BridgeState :=
  { exStickSt with raw_left_x := 0 }

/-- A matching input node without a joystick-class sibling (companion
consumer-control interface). -/
def exNodeA : ScufEventNode :=
  { event_path := "/dev/input/event5"
    has_js := false
    name := "SCUF Consumer Control"
    sysfs_dir := "/sys/class/input/event5"
    pid := SCUF_PRODUCT_ID_WIRED
    has_gamepad_caps := false }

/-- A matching input node with a joystick-class sibling (the gamepad
interface), enumerated after `exNodeA`. -/
def exNodeB : ScufEventNode :=
  { event_path := "/dev/input/event6"
    has_js := true
    name := "SCUF Gamepad"
    sysfs_dir := "/sys/class/input/event6"
    pid := SCUF_PRODUCT_ID_WIRED
    has_gamepad_caps := true }

/-- The discovery result on `[exNodeA, exNodeB]`. -/
def exDiscovered : DiscoveredDevice :=
  { event_path := "/dev/input/event6"
    secondary_event_paths := ["/dev/input/event5"]
    connection_type := "wired" }

/-! ## Theorems -/

/-- C6: the mapping tables are functional and injective within each event
class: the physical codes of `BUTTON_MAP ∪ PADDLE_MAP` are pairwise distinct
(each maps to exactly one canonical code), no two of them map to the same
canonical button code, and likewise for `AXIS_MAP` within the axis class. -/
theorem mapping_tables_functional_and_injective :
    ((BUTTON_MAP ++ PADDLE_MAP).map Prod.fst).Nodup ∧
    ((BUTTON_MAP ++ PADDLE_MAP).map Prod.snd).Nodup ∧
    (AXIS_MAP.map Prod.fst).Nodup ∧
    (AXIS_MAP.map Prod.snd).Nodup := by
  decide

/-- C10: while `_device is None` (before `create()` or after `close()`),
`emit_button`, `emit_axis` and `syn` perform no device write and return the
gamepad unchanged, and `close` is likewise a no-op; moreover a freshly
constructed gamepad has no device, and after any `close` the device is gone. -/
theorem virtual_gamepad_silent_noop (g : VirtualGamepad) (code value : Int)
    (h : g.device = none) :
    g.emit_button code value = (g, []) ∧
    g.emit_axis code value = (g, []) ∧
    g.syn = (g, []) ∧
    g.close = (g, []) ∧
    VirtualGamepad.init.device = none ∧
    ∀ g2 : VirtualGamepad, (g2.close).1.device = none := by
  refine ⟨?_, ?_, ?_, ?_, rfl, ?_⟩
  · simp [VirtualGamepad.emit_button, h]
  · simp [VirtualGamepad.emit_axis, h]
  · simp [VirtualGamepad.syn, h]
  · simp [VirtualGamepad.close, h]
  · intro g2
    rcases g2 with ⟨_ | _⟩ <;> simp [VirtualGamepad.close]

/-- Witness for C10 at a concrete input: the freshly constructed gamepad. -/
theorem virtual_gamepad_silent_noop_witness :
    VirtualGamepad.init.device = none ∧
    VirtualGamepad.init.emit_button BTN_SOUTH 1 = (VirtualGamepad.init, []) :=
  ⟨rfl, (virtual_gamepad_silent_noop VirtualGamepad.init BTN_SOUTH 1 rfl).1⟩

/-- C7: `_handle_button` forwards nothing at all for a physical code that is
in neither `BUTTON_MAP` nor `PADDLE_MAP` (no write, no SYN, state unchanged),
and emits exactly the translated code with the event value followed by one
SYN for a code found in either map. -/
theorem handle_button_translation (st : BridgeState) (code value : Int)
    (hcreated : st.gamepad.device = some ()) :
    (mapLookup BUTTON_MAP code = none → mapLookup PADDLE_MAP code = none →
      handle_button st code value = (st, [])) ∧
    (∀ mapped, mapLookup BUTTON_MAP code = some mapped →
      (handle_button st code value).2 =
        [GAction.write EV_KEY mapped value, GAction.syn]) ∧
    (∀ mapped, mapLookup BUTTON_MAP code = none →
      mapLookup PADDLE_MAP code = some mapped →
      (handle_button st code value).2 =
        [GAction.write EV_KEY mapped value, GAction.syn]) := by
  refine ⟨?_, ?_, ?_⟩
  · intro h1 h2
    simp [handle_button, h1, h2]
  · intro mapped h1
    simp [handle_button, h1, VirtualGamepad.emit_button, VirtualGamepad.syn,
      hcreated]
  · intro mapped h1 h2
    simp [handle_button, h1, h2, VirtualGamepad.emit_button,
      VirtualGamepad.syn, hcreated]

/-- Witness for C7 at a concrete input: the physical `BTN_C` (the X face
button of this hardware) is translated to `BTN_NORTH`. -/
theorem handle_button_translation_witness :
    exSt.gamepad.device = some () ∧
    mapLookup BUTTON_MAP BTN_C = some BTN_NORTH ∧
    (handle_button exSt BTN_C 1).2 =
      [GAction.write EV_KEY BTN_NORTH 1, GAction.syn] :=
  ⟨rfl, by decide,
   (handle_button_translation exSt BTN_C 1 rfl).2.1 BTN_NORTH (by decide)⟩

/-- After any `suppress_jitter` call, the `_last` entry for the key holds the
returned value. -/
theorem suppress_jitter_last_eq (f : InputFilter) (key : String) (v : Int) :
    ((f.suppress_jitter key v).2.2).last key =
      some ((f.suppress_jitter key v).1) := by
  rcases hl : f.last key with _ | old
  · simp [InputFilter.suppress_jitter, hl]
  · by_cases hc : |v - old| < f.jitter_threshold <;>
      simp [InputFilter.suppress_jitter, hl, hc]

/-- A call that reports a change returns the new value itself. -/
theorem suppress_jitter_fst_of_changed (f : InputFilter) (key : String)
    (v : Int) (h : (f.suppress_jitter key v).2.1 = true) :
    (f.suppress_jitter key v).1 = v := by
  rcases hl : f.last key with _ | old
  · simp [InputFilter.suppress_jitter, hl]
  · by_cases hc : |v - old| < f.jitter_threshold
    · exfalso
      simp [InputFilter.suppress_jitter, hl, hc] at h
    · simp [InputFilter.suppress_jitter, hl, hc]

/-- `suppress_jitter` never changes the configured thresholds. -/
theorem suppress_jitter_threshold_eq (f : InputFilter) (key : String)
    (v : Int) :
    ((f.suppress_jitter key v).2.2).jitter_threshold = f.jitter_threshold := by
  rcases hl : f.last key with _ | old
  · simp [InputFilter.suppress_jitter, hl]
  · by_cases hc : |v - old| < f.jitter_threshold <;>
      simp [InputFilter.suppress_jitter, hl, hc]

/-- A call whose value is within the threshold of the stored value is a
no-op: it returns the stored value, reports no change, leaves the filter
untouched. -/
theorem suppress_jitter_close_noop (f : InputFilter) (key : String)
    (v w : Int) (hl : f.last key = some v)
    (hw : |w - v| < f.jitter_threshold) :
    f.suppress_jitter key w = (v, false, f) := by
  simp [InputFilter.suppress_jitter, hl, hw]

/-- Running any steady sequence (all within the threshold of the stored
value) produces no change reports at all and keeps the filter fixed. -/
theorem suppressRun_steady (f : InputFilter) (key : String) (v : Int)
    (hl : f.last key = some v) :
    ∀ vs : List Int, (∀ w ∈ vs, |w - v| < f.jitter_threshold) →
      suppressRun f key vs = (f, vs.map (fun _ => (v, false)))
  | [], _ => rfl
  | w :: vs, hvs => by
      have h1 := suppress_jitter_close_noop f key v w hl (hvs w (by simp))
      have h2 := suppressRun_steady f key v hl vs
        (fun u hu => hvs u (by simp [hu]))
      simp [suppressRun, h1, h2]

/-- C5: with a positive jitter threshold, once `suppress_jitter` reports a
change for value `v` on a key, an immediately repeated call with the same
value reports no change and returns `v`, and more generally any sequence of
subsequent calls on that key whose values stay within the threshold of `v`
reports no change on every call — a steady channel yields at most one change. -/
theorem suppress_jitter_steady_no_second_change (f : InputFilter)
    (key : String) (v : Int) (hthr : 0 < f.jitter_threshold)
    (hchanged : (f.suppress_jitter key v).2.1 = true)
    (vs : List Int) (hvs : ∀ w ∈ vs, |w - v| < f.jitter_threshold) :
    ((f.suppress_jitter key v).2.2).suppress_jitter key v =
      (v, false, (f.suppress_jitter key v).2.2) ∧
    (suppressRun ((f.suppress_jitter key v).2.2) key vs).2 =
      vs.map (fun _ => (v, false)) := by
  have hlast := suppress_jitter_last_eq f key v
  rw [suppress_jitter_fst_of_changed f key v hchanged] at hlast
  have hthr' := suppress_jitter_threshold_eq f key v
  constructor
  · exact suppress_jitter_close_noop _ key v v hlast
      (by rw [hthr']; simpa using hthr)
  · rw [suppressRun_steady _ key v hlast vs
      (fun w hw => by rw [hthr']; exact hvs w hw)]

/-- Witness for C5 at a concrete input: the default filter, key `lt`,
first value 100, then the steady sequence [100, 120]. -/
theorem suppress_jitter_steady_no_second_change_witness :
    0 < defaultInputFilter.jitter_threshold ∧
    (defaultInputFilter.suppress_jitter "lt" 100).2.1 = true ∧
    (suppressRun ((defaultInputFilter.suppress_jitter "lt" 100).2.2) "lt"
        [100, 120]).2 = [(100, false), (100, false)] :=
  ⟨by decide, by decide,
   (suppress_jitter_steady_no_second_change defaultInputFilter "lt" 100
      (by decide) (by decide) [100, 120] (by decide)).2⟩

/-- Helper for the radial deadzone: whenever the magnitude is at most the
deadzone, `filter_stick` yields `(0, 0)` — strictly below it takes the early
branch, exactly at it the scale factor vanishes. -/
theorem filter_stick_eq_zero_of_sqrt_le (f : InputFilter) (x y : Int)
    (h : Real.sqrt (((x * x + y * y : Int) : ℝ)) ≤ (f.stick_deadzone : ℝ)) :
    f.filter_stick x y = (0, 0) := by
  simp only [InputFilter.filter_stick]
  by_cases hlt : Real.sqrt (((x * x + y * y : Int) : ℝ)) < (f.stick_deadzone : ℝ)
  · rw [if_pos hlt]
  · have heq : Real.sqrt (((x * x + y * y : Int) : ℝ)) = (f.stick_deadzone : ℝ) :=
      le_antisymm h (not_lt.mp hlt)
    rw [if_neg hlt, heq, sub_self, zero_div, min_eq_left zero_le_one]
    simp only [mul_zero, zero_mul]
    norm_num [truncInt, STICK_MIN, STICK_MAX, Prod.mk.injEq]

/-- C4: for every integer stick reading whose magnitude `sqrt(x² + y²)` is at
most the configured stick deadzone, `filter_stick` returns `(0, 0)`. -/
theorem filter_stick_deadzone_returns_zero (f : InputFilter) (x y : Int)
    (h : Real.sqrt (((x * x + y * y : Int) : ℝ)) ≤ (f.stick_deadzone : ℝ)) :
    f.filter_stick x y = (0, 0) :=
  filter_stick_eq_zero_of_sqrt_le f x y h

/-- Witness for C4 at a concrete input: the reading `(3, 4)` has magnitude 5,
below the default deadzone 3500. -/
theorem filter_stick_deadzone_returns_zero_witness :
    Real.sqrt (((3 * 3 + 4 * 4 : Int) : ℝ)) ≤
      (defaultInputFilter.stick_deadzone : ℝ) ∧
    defaultInputFilter.filter_stick 3 4 = (0, 0) := by
  have h : Real.sqrt (((3 * 3 + 4 * 4 : Int) : ℝ)) ≤
      (defaultInputFilter.stick_deadzone : ℝ) := by
    have h25 : (((3 * 3 + 4 * 4 : Int) : ℝ)) = 25 := by norm_num
    have h5 : Real.sqrt 25 = 5 := by
      rw [show (25 : ℝ) = 5 ^ 2 by norm_num]
      exact Real.sqrt_sq (by norm_num)
    rw [h25, h5]
    norm_num [defaultInputFilter, STICK_DEADZONE]
  exact ⟨h, filter_stick_deadzone_returns_zero defaultInputFilter 3 4 h⟩

/-- C1 counterexample: a primary-device read failure while running with
reconnection disabled (wired connection). The bridge emits no zeroed frame at
all (the only action is destroying the virtual device during cleanup), so the
claim that every read failure produces a zeroed frame and leaves the virtual
device alive is false. -/
theorem read_failure_counterexample :
    exNoReconnectSt.running = true ∧
    (handle_device_disconnected exNoReconnectSt).1 = BridgeOutcome.stopped ∧
    (handle_device_disconnected exNoReconnectSt).2.2 = [GAction.destroy] ∧
    (handle_device_disconnected exNoReconnectSt).2.1.gamepad.device = none :=
  ⟨rfl, rfl, rfl, rfl⟩

/-- C1 amended: on a primary-device read failure while running, the bridge
always releases all acquired physical devices; when reconnection is enabled
it emits a zeroed frame for the six analog channels followed by exactly one
SYN, keeps the virtual device, and enters the reconnecting state; when
reconnection is disabled it stops without emitting any zeroed frame and the
virtual device is destroyed during cleanup. -/
theorem read_failure_amended (st : BridgeState)
    (hrun : st.running = true) (hcreated : st.gamepad.device = some ()) :
    ((handle_device_disconnected st).2.1.grabbed_devices = [] ∧
     (handle_device_disconnected st).2.1.physical = none) ∧
    (st.reconnect = true →
      (handle_device_disconnected st).1 = BridgeOutcome.reconnecting ∧
      (handle_device_disconnected st).2.2 =
        [GAction.write EV_ABS ABS_X 0, GAction.write EV_ABS ABS_Y 0,
         GAction.write EV_ABS ABS_RX 0, GAction.write EV_ABS ABS_RY 0,
         GAction.write EV_ABS ABS_Z 0, GAction.write EV_ABS ABS_RZ 0,
         GAction.syn] ∧
      (handle_device_disconnected st).2.1.gamepad.device = some ()) ∧
    (st.reconnect = false →
      (handle_device_disconnected st).1 = BridgeOutcome.stopped ∧
      (handle_device_disconnected st).2.2 = [GAction.destroy] ∧
      (handle_device_disconnected st).2.1.gamepad.device = none) := by
  cases hrec : st.reconnect <;>
    simp [handle_device_disconnected, release_physical, zero_virtual_outputs,
      VirtualGamepad.emit_axis, VirtualGamepad.syn, VirtualGamepad.close,
      hrun, hrec, hcreated]

/-- Witness for C1 (amended) at a concrete input: the running wireless
bridge `exSt`. -/
theorem read_failure_amended_witness :
    exSt.running = true ∧ exSt.gamepad.device = some () ∧
    exSt.reconnect = true ∧
    (handle_device_disconnected exSt).1 = BridgeOutcome.reconnecting :=
  ⟨rfl, rfl, rfl, ((read_failure_amended exSt rfl rfl).2.1 rfl).1⟩

/-- C2 counterexample: on a disconnect of the running wireless bridge
`exStaleSt`, whose jitter memory holds 500 for the left trigger, the
per-channel last-emitted-value memory is not reset: the stale entry survives
untouched, refuting the claim that the entire filter state is zeroed. -/
theorem filter_reset_counterexample :
    exStaleSt.running = true ∧ exStaleSt.reconnect = true ∧
    (handle_device_disconnected exStaleSt).2.1.filter.last "lt" = some 500 ∧
    ¬ ((handle_device_disconnected exStaleSt).2.1.filter.last "lt" = some 0 ∨
       (handle_device_disconnected exStaleSt).2.1.filter.last "lt" = none) := by
  refine ⟨rfl, rfl, by decide, by decide⟩

/-- C2 amended: on a disconnect handled with reconnection enabled, the four
latched raw stick readings are reset to zero, but the jitter-suppression
memory (the whole `InputFilter` object) is left unchanged. -/
theorem filter_reset_amended (st : BridgeState)
    (hrun : st.running = true) (hrec : st.reconnect = true) :
    (handle_device_disconnected st).2.1.raw_left_x = 0 ∧
    (handle_device_disconnected st).2.1.raw_left_y = 0 ∧
    (handle_device_disconnected st).2.1.raw_right_x = 0 ∧
    (handle_device_disconnected st).2.1.raw_right_y = 0 ∧
    (handle_device_disconnected st).2.1.filter = st.filter := by
  simp [handle_device_disconnected, release_physical, zero_virtual_outputs,
    hrun, hrec]

/-- Witness for C2 (amended) at a concrete input: the stale-memory bridge
`exStaleSt`. -/
theorem filter_reset_amended_witness :
    exStaleSt.running = true ∧ exStaleSt.reconnect = true ∧
    (handle_device_disconnected exStaleSt).2.1.raw_left_x = 0 ∧
    (handle_device_disconnected exStaleSt).2.1.filter = exStaleSt.filter :=
  ⟨rfl, rfl, (filter_reset_amended exStaleSt rfl rfl).1,
   (filter_reset_amended exStaleSt rfl rfl).2.2.2.2⟩

/-- C3 counterexample: a left-stick X event on `exStickSt` whose suppressed
Y value is unchanged (`changed = false` for `left_y`) still writes the Y
axis: the code emits both components whenever either changed, refuting the
claim that an unchanged component is not emitted. -/
theorem stick_emission_counterexample :
    (((exStickSt.filter.suppress_jitter ("left" ++ "_x") 0).2.2).suppress_jitter
        ("left" ++ "_y") 0).2.1 = false ∧
    (handle_axis exStickSt ABS_X 0).2 =
      [GAction.write EV_ABS ABS_X 0, GAction.write EV_ABS ABS_Y 0,
       GAction.syn] := by
  refine ⟨by decide, ?_⟩
  have hfs2 : exStickSt2.filter.filter_stick 0 0 = (0, 0) := by
    apply filter_stick_eq_zero_of_sqrt_le
    have h0 : (((0 * 0 + 0 * 0 : Int) : ℝ)) = 0 := by norm_num
    rw [h0, Real.sqrt_zero]
    show (0 : ℝ) ≤ ((3500 : Int) : ℝ)
    norm_num
  have hha : handle_axis exStickSt ABS_X 0 =
      emit_filtered_stick exStickSt2 "left" 0 0 ABS_X ABS_Y := rfl
  have h1c : (exStickSt2.filter.suppress_jitter "left_x" 0).2.1
      = true := by decide
  have h1v : (exStickSt2.filter.suppress_jitter "left_x" 0).1
      = 0 := by decide
  have h2c : (((exStickSt2.filter.suppress_jitter "left_x" 0).2.2
      ).suppress_jitter "left_y" 0).2.1 = false := by decide
  have h2v : (((exStickSt2.filter.suppress_jitter "left_x" 0).2.2
      ).suppress_jitter "left_y" 0).1 = 0 := by decide
  have hdev : exStickSt2.gamepad.device.isSome = true := by decide
  rw [hha]
  simp only [emit_filtered_stick, hfs2]
  simp [h1c, h1v, h2c, h2v, hdev, VirtualGamepad.emit_axis,
    VirtualGamepad.syn]

/-- C3 amended: a stick-component axis event latches the new raw value and
re-runs the joint radial filter plus jitter suppression for both components;
if either suppressed component changed, the code emits BOTH components (each
with its suppressed value) followed by exactly one SYN, and if neither
changed it emits nothing at all. -/
theorem stick_emission_amended (st : BridgeState) (name : String)
    (raw_x raw_y out_x out_y : Int)
    (hcreated : st.gamepad.device = some ()) :
    (∀ value, handle_axis st ABS_X value =
      emit_filtered_stick { st with raw_left_x := value } "left"
        value st.raw_left_y ABS_X ABS_Y) ∧
    (∀ value, handle_axis st ABS_Y value =
      emit_filtered_stick { st with raw_left_y := value } "left"
        st.raw_left_x value ABS_X ABS_Y) ∧
    (∀ value, handle_axis st ABS_Z value =
      emit_filtered_stick { st with raw_right_x := value } "right"
        value st.raw_right_y ABS_RX ABS_RY) ∧
    (∀ value, handle_axis st ABS_RZ value =
      emit_filtered_stick { st with raw_right_y := value } "right"
        st.raw_right_x value ABS_RX ABS_RY) ∧
    (let fxy := st.filter.filter_stick raw_x raw_y
     let rx := st.filter.suppress_jitter (name ++ "_x") fxy.1
     let ry := rx.2.2.suppress_jitter (name ++ "_y") fxy.2
     (emit_filtered_stick st name raw_x raw_y out_x out_y).2 =
       if rx.2.1 || ry.2.1 then
         [GAction.write EV_ABS out_x rx.1, GAction.write EV_ABS out_y ry.1,
          GAction.syn]
       else []) := by
  refine ⟨fun _ => rfl, fun _ => rfl, fun _ => rfl, fun _ => rfl, ?_⟩
  simp only [emit_filtered_stick]
  by_cases hch :
      ((st.filter.suppress_jitter (name ++ "_x")
          (st.filter.filter_stick raw_x raw_y).1).2.1 ||
        (((st.filter.suppress_jitter (name ++ "_x")
            (st.filter.filter_stick raw_x raw_y).1).2.2).suppress_jitter
          (name ++ "_y") (st.filter.filter_stick raw_x raw_y).2).2.1) = true <;>
    simp [hch, VirtualGamepad.emit_axis, VirtualGamepad.syn, hcreated]

/-- Witness for C3 (amended) at a concrete input: the bridge `exSt` and a
left-stick X event with value 0. -/
theorem stick_emission_amended_witness :
    exSt.gamepad.device = some () ∧
    handle_axis exSt ABS_X 0 =
      emit_filtered_stick { exSt with raw_left_x := 0 } "left" 0
        exSt.raw_left_y ABS_X ABS_Y :=
  ⟨rfl, (stick_emission_amended exSt "left" 0 0 ABS_X ABS_Y rfl).1 0⟩

/-- Once a primary is chosen, strategy 1 never changes it. -/
theorem strategy1Loop_fst_some (l : List ScufEventNode) :
    ∀ (p : String) (sec : List String),
      (strategy1Loop (some p) sec l).1 = some p := by
  induction l with
  | nil => intro p sec; rfl
  | cons c rest ih =>
      intro p sec
      by_cases hc : c.has_js = true <;> simp [strategy1Loop, hc, ih]

/-- Strategy 1 only ever appends to the secondary accumulator. -/
theorem strategy1Loop_sec_subset (l : List ScufEventNode) :
    ∀ (primary : Option String) (sec : List String) (x : String),
      x ∈ sec → x ∈ (strategy1Loop primary sec l).2 := by
  induction l with
  | nil => intro primary sec x hx; exact hx
  | cons c rest ih =>
      intro primary sec x hx
      by_cases hc : c.has_js = true
      · cases primary with
        | none =>
            simp only [strategy1Loop, hc, if_pos]
            exact ih (some c.event_path) sec x hx
        | some p =>
            simp only [strategy1Loop, hc, if_pos]
            exact ih (some p) (sec ++ [c.event_path]) x (by simp [hx])
      · simp only [strategy1Loop, hc, if_neg]
        exact ih primary (sec ++ [c.event_path]) x (by simp [hx])

/-- Every listed node either becomes the selected primary of strategy 1 or
lands in its secondary list. -/
theorem strategy1Loop_covers (c : ScufEventNode) (l : List ScufEventNode) :
    ∀ (primary : Option String) (sec : List String), c ∈ l →
      (strategy1Loop primary sec l).1 = some c.event_path ∨
      c.event_path ∈ (strategy1Loop primary sec l).2 := by
  induction l with
  | nil => intro primary sec hc; exact absurd hc (by simp)
  | cons c0 rest ih =>
      intro primary sec hc
      rcases List.mem_cons.mp hc with hceq | hmem
      · subst hceq
        by_cases hjs : c.has_js = true
        · cases primary with
          | none =>
              left
              simp [strategy1Loop, hjs, strategy1Loop_fst_some]
          | some p =>
              right
              simp only [strategy1Loop, hjs, if_pos]
              exact strategy1Loop_sec_subset rest (some p)
                (sec ++ [c.event_path]) c.event_path (by simp)
        · right
          simp only [strategy1Loop, hjs, if_neg]
          exact strategy1Loop_sec_subset rest primary
            (sec ++ [c.event_path]) c.event_path (by simp)
      · by_cases hjs : c0.has_js = true
        · cases primary with
          | none =>
              simp only [strategy1Loop, hjs, if_pos]
              exact ih (some c0.event_path) sec hmem
          | some p =>
              simp only [strategy1Loop, hjs, if_pos]
              exact ih (some p) (sec ++ [c0.event_path]) hmem
        · simp only [strategy1Loop, hjs, if_neg]
          exact ih primary (sec ++ [c0.event_path]) hmem

/-- If some listed node has a js sibling, strategy 1 selects (the first)
such node as primary. -/
theorem strategy1Loop_finds_js (l : List ScufEventNode) :
    ∀ (sec : List String), (∃ c ∈ l, c.has_js = true) →
      ∃ c ∈ l, c.has_js = true ∧
        (strategy1Loop none sec l).1 = some c.event_path := by
  induction l with
  | nil => intro sec h; simp at h
  | cons c0 rest ih =>
      intro sec h
      by_cases h0 : c0.has_js = true
      · refine ⟨c0, by simp, h0, ?_⟩
        simp [strategy1Loop, h0, strategy1Loop_fst_some]
      · obtain ⟨c, hc, hcjs⟩ := h
        rcases List.mem_cons.mp hc with hceq | hmem
        · subst hceq; exact absurd hcjs h0
        · obtain ⟨c', hc', hjs', hfst⟩ :=
            ih (sec ++ [c0.event_path]) ⟨c, hmem, hcjs⟩
          refine ⟨c', by simp [hc'], hjs', ?_⟩
          simpa [strategy1Loop, h0] using hfst

/-- C8: whenever at least two nodes match the vendor/product identifiers and
at least one of them has a joystick-class sibling handler, discovery selects
a node with the sibling as primary — whatever the enumeration order — and
every matching node other than the primary appears in the secondary list. -/
theorem discovery_selects_js_node (l : List ScufEventNode)
    (hlen : 2 ≤ l.length) (hjs : ∃ c ∈ l, c.has_js = true) :
    ∃ p sec,
      select_primary l = some (p, sec) ∧
      (∃ c ∈ l, c.event_path = p ∧ c.has_js = true) ∧
      (∀ c ∈ l, c.event_path ≠ p → c.event_path ∈ sec) := by
  obtain ⟨c, hc, hcjs, hfst⟩ := strategy1Loop_finds_js l [] hjs
  have hne : l.isEmpty = false := by
    cases l with
    | nil => simp at hc
    | cons a rest => rfl
  refine ⟨c.event_path, (strategy1Loop none [] l).2, ?_,
    ⟨c, hc, rfl, hcjs⟩, ?_⟩
  · simp [select_primary, hne, hfst]
  · intro c' hc' hnep
    rcases strategy1Loop_covers c' l none [] hc' with h | h
    · rw [hfst] at h
      exact absurd (Option.some.inj h).symm hnep
    · exact h

/-- Witness for C8 at a concrete input: two matching nodes, the joystick
sibling on the second one in enumeration order. -/
theorem discovery_selects_js_node_witness :
    2 ≤ ([exNodeA, exNodeB] : List ScufEventNode).length ∧
    (∃ c ∈ [exNodeA, exNodeB], c.has_js = true) ∧
    ∃ p sec,
      select_primary [exNodeA, exNodeB] = some (p, sec) ∧
      (∃ c ∈ [exNodeA, exNodeB], c.event_path = p ∧ c.has_js = true) ∧
      (∀ c ∈ [exNodeA, exNodeB], c.event_path ≠ p → c.event_path ∈ sec) :=
  ⟨by decide, by decide,
   discovery_selects_js_node [exNodeA, exNodeB] (by decide) (by decide)⟩

/-- The primary of strategy 1 comes from the scanned list (or was the
incoming accumulator value). -/
theorem strategy1Loop_fst_mem (l : List ScufEventNode) :
    ∀ (primary : Option String) (sec : List String) (p : String),
      (strategy1Loop primary sec l).1 = some p →
      primary = some p ∨ ∃ c ∈ l, c.event_path = p := by
  induction l with
  | nil => intro primary sec p h; exact Or.inl h
  | cons c0 rest ih =>
      intro primary sec p h
      by_cases h0 : c0.has_js = true
      · cases primary with
        | none =>
            right
            rw [show strategy1Loop none sec (c0 :: rest)
                = strategy1Loop (some c0.event_path) sec rest from by
              simp [strategy1Loop, h0]] at h
            rw [strategy1Loop_fst_some rest c0.event_path sec] at h
            exact ⟨c0, by simp, Option.some.inj h⟩
        | some q =>
            rcases ih (some q) (sec ++ [c0.event_path]) p
                (by simpa [strategy1Loop, h0] using h) with h' | ⟨c, hc, hcp⟩
            · exact Or.inl h'
            · exact Or.inr ⟨c, by simp [hc], hcp⟩
      · rcases ih primary (sec ++ [c0.event_path]) p
            (by simpa [strategy1Loop, h0] using h) with h' | ⟨c, hc, hcp⟩
        · exact Or.inl h'
        · exact Or.inr ⟨c, by simp [hc], hcp⟩

/-- The primary selected by `select_primary` is the path of a scanned node. -/
theorem select_primary_mem (l : List ScufEventNode) (p : String)
    (sec : List String) (h : select_primary l = some (p, sec)) :
    ∃ c ∈ l, c.event_path = p := by
  simp only [select_primary] at h
  by_cases hemp : l.isEmpty = true
  · rw [if_pos hemp] at h
    simp at h
  · rw [if_neg hemp] at h
    rcases hs : (strategy1Loop none [] l).1 with _ | q
    · rw [hs] at h
      rcases hf : l.find? (fun c => c.has_gamepad_caps) with _ | c
      · rw [hf] at h
        cases l with
        | nil => simp at hemp
        | cons c0 rest =>
            simp only [Option.some.injEq, Prod.mk.injEq] at h
            exact ⟨c0, by simp, h.1⟩
      · rw [hf] at h
        simp only [Option.some.injEq, Prod.mk.injEq] at h
        exact ⟨c, List.mem_of_find?_eq_some hf, h.1⟩
    · rw [hs] at h
      simp only [Option.some.injEq, Prod.mk.injEq] at h
      rcases strategy1Loop_fst_mem l none [] q hs with h' | ⟨c, hc, hcp⟩
      · simp at h'
      · exact ⟨c, hc, by rw [hcp, h.1]⟩

/-- `reconnect_enabled` is exactly the wireless connection-type test. -/
theorem reconnect_enabled_iff (d : DiscoveredDevice) :
    reconnect_enabled d = true ↔ d.connection_type = "wireless" := by
  simp [reconnect_enabled]

/-- C9: for a successful discovery over nodes whose product identifiers are
the wired or the receiver one, the recorded connection type is wireless
exactly when the node selected as primary matched the receiver identifier
and wired exactly when it matched the wired identifier, and the bridge
enables reconnection precisely for a wireless connection type. -/
theorem connection_type_and_reconnect (l : List ScufEventNode)
    (d : DiscoveredDevice)
    (hpids : ∀ c ∈ l, c.pid = SCUF_PRODUCT_ID_WIRED ∨
      c.pid = SCUF_PRODUCT_ID_RECEIVER)
    (hd : discover_scuf l = some d) :
    ∃ c ∈ l, c.event_path = d.event_path ∧
      (d.connection_type = "wireless" ↔ c.pid = SCUF_PRODUCT_ID_RECEIVER) ∧
      (d.connection_type = "wired" ↔ c.pid = SCUF_PRODUCT_ID_WIRED) ∧
      (reconnect_enabled d = true ↔ d.connection_type = "wireless") := by
  rcases hsp : select_primary l with _ | ps
  · simp [discover_scuf, hsp] at hd
  · simp only [discover_scuf, hsp, Option.some.injEq] at hd
    obtain ⟨c0, hc0, hc0p⟩ := select_primary_mem l ps.1 ps.2 hsp
    rcases hf : l.find? (fun c => c.event_path == ps.1) with _ | cf
    · exfalso
      have : (l.find? (fun c => c.event_path == ps.1)).isSome := by
        rw [List.find?_isSome]
        exact ⟨c0, hc0, by simp [hc0p]⟩
      rw [hf] at this
      simp at this
    · have hcfmem := List.mem_of_find?_eq_some hf
      have hcfpath : cf.event_path = ps.1 := by
        simpa using List.find?_some hf
      have hct : d.connection_type =
          if cf.pid = SCUF_PRODUCT_ID_RECEIVER then "wireless" else "wired" := by
        rw [← hd]
        simp [connection_type_for, hf]
      have hdp : d.event_path = ps.1 := by rw [← hd]
      refine ⟨cf, hcfmem, by rw [hdp]; exact hcfpath, ?_, ?_,
        reconnect_enabled_iff d⟩
      · by_cases hrec : cf.pid = SCUF_PRODUCT_ID_RECEIVER
        · rw [hct, if_pos hrec]
          exact ⟨fun _ => hrec, fun _ => rfl⟩
        · rw [hct, if_neg hrec]
          constructor
          · intro hcontr
            exact absurd hcontr (by decide)
          · intro hcontr
            exact absurd hcontr hrec
      · by_cases hrec : cf.pid = SCUF_PRODUCT_ID_RECEIVER
        · rw [hct, if_pos hrec]
          constructor
          · intro hcontr
            exact absurd hcontr (by decide)
          · intro hwired
            exfalso
            rw [hwired] at hrec
            exact absurd hrec (by decide)
        · rw [hct, if_neg hrec]
          have := hpids cf hcfmem
          exact ⟨fun _ => this.resolve_right hrec, fun _ => rfl⟩

/-- Witness for C9 at a concrete input: discovery over the two wired-PID
nodes selects the gamepad node, records a wired connection, and reconnection
is disabled. -/
theorem connection_type_and_reconnect_witness :
    (∀ c ∈ [exNodeA, exNodeB], c.pid = SCUF_PRODUCT_ID_WIRED ∨
      c.pid = SCUF_PRODUCT_ID_RECEIVER) ∧
    discover_scuf [exNodeA, exNodeB] = some exDiscovered ∧
    ∃ c ∈ [exNodeA, exNodeB], c.event_path = exDiscovered.event_path ∧
      (exDiscovered.connection_type = "wireless" ↔
        c.pid = SCUF_PRODUCT_ID_RECEIVER) ∧
      (exDiscovered.connection_type = "wired" ↔
        c.pid = SCUF_PRODUCT_ID_WIRED) ∧
      (reconnect_enabled exDiscovered = true ↔
        exDiscovered.connection_type = "wireless") :=
  ⟨by decide, by decide,
   connection_type_and_reconnect [exNodeA, exNodeB] exDiscovered
     (by decide) (by decide)⟩

end ScufEnvision
